import Mathlib

/-!
Shallow embedding of the voice-capture session controller of the
`chatbot_advisor` repository (React frontend,
`src/hooks/useVoiceRecording.js` and the later rewrite shipped in the
repository as an unnamed source part with `createRecognition`), together
with the transcript hand-off effect of `components/VoiceRecorder.js`.

Conventions of the embedding:
* Machine events (`onstart`, `onresult`, `onerror`, `onend`), the public
  operations (`startRecording`, `stopRecording`, `clearTranscript`) and
  timer expiries are discrete events fed to a step function on an explicit
  controller state, mirroring the React state variables and refs
  (`isRecording`, `isListening`, `transcript`, `error`,
  `retryCountRef`, `timeoutRef`).
* `setTimeout` deadlines are absolute times (`Nat`, milliseconds); the
  silence timer is the field `timer`, the 500 ms abort-retry timer is
  `pendingRestart`.
* A ghost counter `restarts` counts scheduled restart attempts; the ghost
  field `engineResults` mirrors the recognition engine's cumulative
  result list (the session's internal buffer, owned by the engine and
  re-delivered whole on each `onresult`).
-/

namespace VoiceRecording

/-- One recognized segment as delivered in `event.results[i]`:
`event.results[i][0].transcript` and `event.results[i].isFinal`. -/
structure Segment where
  isFinal : Bool
  text : String
deriving DecidableEq, Repr

/-- The `onresult` accumulation loop:
`for (i …) { if (isFinal) fullTranscript += part else interimTranscript += part }`,
threading the two string accumulators. Returns `(fullTranscript, interimTranscript)`. -/
def buildLoop : List Segment → String → String → String × String
  | [], full, interim => (full, interim)
  | seg :: rest, full, interim =>
    if seg.isFinal then buildLoop rest (full ++ seg.text) interim
    else buildLoop rest full (interim ++ seg.text)

/-- `const newTranscript = fullTranscript + interimTranscript`. -/
def newTranscript (results : List Segment) : String :=
  (buildLoop results "" "").1 ++ (buildLoop results "" "").2

/-- Concatenation of the texts of the `Final` segments, in arrival order. -/
def finalsText (results : List Segment) : String :=
  String.join ((results.filter fun s => s.isFinal).map Segment.text)

/-- Concatenation of the texts of the `Interim` segments, in arrival order. -/
def interimsText (results : List Segment) : String :=
  String.join ((results.filter fun s => !s.isFinal).map Segment.text)

/-- Error message table of the `switch(event.error)` in `recognition.onerror`
(`useVoiceRecording.js`); the `aborted` case is handled before this table. -/
def errorMessage (code : String) : String :=
  if code = "network" then
    "Network error. Please check your internet connection and try again."
  else if code = "not-allowed" then
    "Microphone access denied. Please allow microphone permissions and try again."
  else if code = "no-speech" then
    "No speech detected. Try speaking louder, getting closer to the microphone, or check your microphone settings."
  else if code = "audio-capture" then
    "Audio capture failed. Please check your microphone and try again."
  else if code = "service-not-allowed" then
    "Speech recognition service not allowed. Try using HTTPS or a different browser."
  else
    "Speech recognition error: " ++ code ++ ". Try refreshing the page."

/-- The specification's error taxonomy, as the classification of the
capability-reported codes that the `switch` distinguishes. -/
inductive ErrorKind where
  | PermissionDenied
  | NoSpeechDetected
  | AudioCaptureFailed
  | NetworkError
  | ServiceNotAllowed
  | SpuriousAbort
  | Other
deriving DecidableEq, Repr

/-- Kind of a capability-reported code, following the cases of the `switch`. -/
def errorKind (code : String) : ErrorKind :=
  if code = "aborted" then .SpuriousAbort
  else if code = "network" then .NetworkError
  else if code = "not-allowed" then .PermissionDenied
  else if code = "no-speech" then .NoSpeechDetected
  else if code = "audio-capture" then .AudioCaptureFailed
  else if code = "service-not-allowed" then .ServiceNotAllowed
  else .Other

/-- Controller state of `useVoiceRecording.js`: the React state variables and
refs, plus the ghost fields described in the header. -/
structure VRState where
  isRecording : Bool
  isListening : Bool
  transcript : String
  error : Option String
  retryCount : Nat
  timer : Option Nat
  pendingRestart : Option Nat
  restarts : Nat
  engineResults : List Segment
deriving DecidableEq, Repr

/-- The controller state before any event: all flags down, empty buffers. -/
def initialState : VRState :=
  { isRecording := false, isListening := false, transcript := ""
    error := none, retryCount := 0, timer := none
    pendingRestart := none, restarts := 0, engineResults := [] }

/-- Discrete events fed to the controller: capability callbacks, the public
operations, and the silence-timer expiry. -/
inductive Event where
  | onstart
  | onresult (results : List Segment)
  | onerror (code : String)
  | onend
  | timerFire
  | callStart
  | callStop
  | callClear
deriving DecidableEq, Repr

/-- `stopRecording()`: stop the engine, clear both flags, clear the timer. -/
def stopRec (s : VRState) : VRState :=
  { s with isRecording := false, isListening := false, timer := none }

/-- One controller step at absolute time `now` (ms), translated handler by
handler from `useVoiceRecording.js`. -/
def step (s : VRState) (now : Nat) : Event → VRState
  | .onstart =>
      { s with isListening := true, error := none, retryCount := 0 }
  | .onresult results =>
      let full := (buildLoop results "" "").1
      let interim := (buildLoop results "" "").2
      let s' := { s with transcript := full ++ interim, engineResults := results }
      if s.isRecording ∧ (full ≠ "" ∨ interim ≠ "") then
        { s' with timer := some (now + 3000) }
      else s'
  | .onerror code =>
      if code = "aborted" then
        let s' := { s with isListening := false }
        if s.isRecording ∧ s.retryCount < 1 then
          { s' with retryCount := s.retryCount + 1
                    pendingRestart := some (now + 500)
                    restarts := s.restarts + 1 }
        else
          { s' with isRecording := false, retryCount := 0 }
      else
        { s with error := some (errorMessage code)
                 isListening := false, isRecording := false }
  | .onend =>
      { s with isListening := false }
  | .timerFire =>
      if s.isRecording then stopRec s else { s with timer := none }
  | .callStart =>
      if s.isRecording then s
      else { s with transcript := "", error := none, isRecording := true }
  | .callStop => stopRec s
  | .callClear =>
      { s with transcript := "", error := none }

/-- Drive the controller through a time-ordered event trace, firing the
silence timer whenever its deadline precedes the next event (or survives to
the end of the trace while recording). Returns the final state and the time
of the timeout-path termination, when one occurred. -/
def runTimed : VRState → List (Nat × Event) → VRState × Option Nat
  | s, [] =>
      match s.timer with
      | some d => if s.isRecording then (stopRec s, some d) else (s, none)
      | none => (s, none)
  | s, (t, e) :: rest =>
      match s.timer with
      | some d =>
          if d ≤ t then
            if s.isRecording then (stopRec s, some d)
            else runTimed (step { s with timer := none } t e) rest
          else runTimed (step s t e) rest
      | none => runTimed (step s t e) rest

end VoiceRecording

/-- JavaScript `String.prototype.trim()`: remove the run of whitespace
characters at each end of the string. -/
def jsTrim (s : String) : String :=
  String.mk (((s.data.dropWhile Char.isWhitespace).reverse.dropWhile
    Char.isWhitespace).reverse)

namespace HandOff

/-!
The transcript hand-off effect of `components/VoiceRecorder.js`:

```
useEffect(() => {
  if (!isRecording && transcript.trim() && onTranscript) {
    onTranscript(transcript.trim());
    clearTranscript();
  }
}, [isRecording, transcript, onTranscript, clearTranscript]);
```

React runs the effect after each committed state change; `clearTranscript()`
resets `transcript` to `""` and `error` to `null` before any further run of
the effect can observe the old value. `delivered` is the ghost log of the
arguments passed to the registered consumer `onTranscript`.
-/

/-- State of the `VoiceRecorder` component as seen by the hand-off effect. -/
structure State where
  isRecording : Bool
  transcript : String
  error : Option String
  delivered : List String
deriving DecidableEq, Repr

/-- One run of the hand-off effect (the consumer `onTranscript` is
registered). -/
def effectRun (s : State) : State :=
  if ¬s.isRecording ∧ jsTrim s.transcript ≠ "" then
    { s with delivered := s.delivered ++ [jsTrim s.transcript]
             transcript := "", error := none }
  else s

/-- Component state at the end of a recording session whose finalized
buffer is `b`, before any run of the hand-off effect. -/
def sessionEnd (b : String) : State :=
  { isRecording := false, transcript := b, error := none, delivered := [] }

end HandOff

namespace FreshInstance

/-!
Model of the later rewrite of the hook (the repository's unnamed source
part with `createRecognition`): `startRecording` constructs a completely
fresh recognition instance on every non-no-op call and `stopRecording`
discards the current one (`recognitionRef.current = null`).

Recognition instances are identified by allocation order: `nextId` is the
allocator counter, `createRecognition` hands out `nextId`. The ghost logs
`started` (ids on which `.start()` was invoked) and `terminated` (ids
discarded by `stopRecording`) record the lifecycle.
-/

/-- State of the rewrite's hook: React state, the recognition ref as the id
of the held instance, the allocator counter, and the ghost lifecycle logs. -/
structure State where
  isSupported : Bool
  isRecording : Bool
  isListening : Bool
  transcript : String
  error : Option String
  recognitionRef : Option Nat
  nextId : Nat
  started : List Nat
  terminated : List Nat
deriving DecidableEq, Repr

/-- Hook state on mount, with the capability probe's verdict. -/
def mkInitial (supported : Bool) : State :=
  { isSupported := supported, isRecording := false, isListening := false
    transcript := "", error := none, recognitionRef := none
    nextId := 0, started := [], terminated := [] }

/-- `startRecording` of the rewrite: reject when unsupported; no-op while
recording; otherwise allocate a fresh instance, reset transcript/error,
and start it. -/
def startRecording (s : State) : State :=
  if ¬s.isSupported then
    { s with error := some "Speech recognition is not supported" }
  else if ¬s.isRecording then
    { s with recognitionRef := some s.nextId
             nextId := s.nextId + 1
             transcript := "", error := none
             isRecording := true
             started := s.started ++ [s.nextId] }
  else s

/-- `stopRecording` of the rewrite: stop and discard the held instance
(`recognitionRef.current = null`), clear the flags. -/
def stopRecording (s : State) : State :=
  match s.recognitionRef with
  | some id =>
      { s with recognitionRef := none
               terminated := s.terminated ++ [id]
               isRecording := false, isListening := false }
  | none => { s with isRecording := false, isListening := false }

/-- Allocator invariant: every id ever started or terminated, and the held
one, is below the counter. -/
def Inv (s : State) : Prop :=
  (∀ i ∈ s.started, i < s.nextId) ∧ (∀ i ∈ s.terminated, i < s.nextId) ∧
  (∀ i ∈ s.recognitionRef.toList, i < s.nextId)

instance (s : State) : Decidable (Inv s) := by
  unfold Inv
  exact inferInstance

end FreshInstance

namespace VoiceRecording

theorem foldl_append_eq_join (l : List String) :
    ∀ a : String, List.foldl (fun r s => r ++ s) a l = a ++ String.join l := by
  induction l with
  | nil => intro a; simp only [List.foldl, String.join]; rw [String.append_empty]
  | cons x xs ih =>
      intro a
      simp only [List.foldl, String.join]
      rw [ih (a ++ x), ih ("" ++ x), String.empty_append, String.append_assoc]

theorem join_cons (x : String) (xs : List String) :
    String.join (x :: xs) = x ++ String.join xs := by
  simp only [String.join, List.foldl]
  rw [foldl_append_eq_join, String.empty_append]
  rfl

theorem buildLoop_eq (results : List Segment) :
    ∀ full interim, buildLoop results full interim =
      (full ++ finalsText results, interim ++ interimsText results) := by
  induction results with
  | nil =>
      intro full interim
      simp only [buildLoop, finalsText, interimsText, List.filter_nil,
        List.map_nil, String.join]
      rw [List.foldl_nil, String.append_empty, String.append_empty]
  | cons seg rest ih =>
      intro full interim
      cases hf : seg.isFinal with
      | true =>
          simp [buildLoop, hf, ih, finalsText, interimsText,
            List.filter_cons, join_cons, String.append_assoc]
      | false =>
          simp [buildLoop, hf, ih, finalsText, interimsText,
            List.filter_cons, join_cons, String.append_assoc]

theorem newTranscript_eq (results : List Segment) :
    newTranscript results = finalsText results ++ interimsText results := by
  simp [newTranscript, buildLoop_eq]

end VoiceRecording

namespace HandOff

theorem effectRun_of_recording (s : State) (h : s.isRecording = true) :
    effectRun s = s := by
  simp [effectRun, h]

theorem jsTrim_empty : jsTrim "" = "" := rfl

theorem effectRun_idem (s : State) : effectRun (effectRun s) = effectRun s := by
  by_cases h : ¬s.isRecording ∧ jsTrim s.transcript ≠ ""
  · have h1 : effectRun s =
        { s with delivered := s.delivered ++ [jsTrim s.transcript]
                 transcript := "", error := none } := by
      simp [effectRun, h]
    rw [h1]
    simp [effectRun, jsTrim_empty]
  · have h1 : effectRun s = s := by unfold effectRun; rw [if_neg h]
    rw [h1, h1]

theorem effectRun_iterate (s : State) (n : Nat) (hn : 1 ≤ n) :
    effectRun^[n] s = effectRun s := by
  induction n with
  | zero => omega
  | succ m ih =>
      rcases Nat.eq_or_lt_of_le hn with h1 | h1
      · simp [← h1]
      · have hm : 1 ≤ m := by omega
        rw [Function.iterate_succ_apply', ih hm, effectRun_idem]

end HandOff

namespace FreshInstance

theorem inv_initial (supported : Bool) : Inv (mkInitial supported) := by
  simp [Inv, mkInitial]

theorem inv_start (s : State) (h : Inv s) : Inv (startRecording s) := by
  obtain ⟨h1, h2, h3⟩ := h
  unfold startRecording Inv
  by_cases hs : ¬s.isSupported
  · rw [if_pos hs]; exact ⟨h1, h2, h3⟩
  · rw [if_neg hs]
    by_cases hr : ¬s.isRecording
    · rw [if_pos hr]
      dsimp only
      refine ⟨?_, ?_, ?_⟩
      · intro i hi
        rcases List.mem_append.mp hi with hi | hi
        · exact Nat.lt_succ_of_lt (h1 i hi)
        · simp only [List.mem_singleton] at hi; omega
      · intro i hi; exact Nat.lt_succ_of_lt (h2 i hi)
      · intro i hi
        simp only [Option.toList_some, List.mem_singleton] at hi
        omega
    · rw [if_neg hr]; exact ⟨h1, h2, h3⟩

theorem inv_stop (s : State) (h : Inv s) : Inv (stopRecording s) := by
  obtain ⟨h1, h2, h3⟩ := h
  unfold stopRecording Inv
  cases href : s.recognitionRef with
  | none => exact ⟨h1, h2, by simp⟩
  | some j =>
      have h3j : j < s.nextId := h3 j (by simp [href])
      dsimp only
      refine ⟨h1, ?_, by simp⟩
      intro i hi
      rcases List.mem_append.mp hi with hi | hi
      · exact h2 i hi
      · simp only [List.mem_singleton] at hi
        rw [hi]; exact h3j

end FreshInstance

namespace VoiceRecording

theorem append_empty_empty : ("" : String) ++ "" = "" := rfl

theorem newTranscript_parts_ne {rs : List Segment} (h : newTranscript rs ≠ "") :
    (buildLoop rs "" "").1 ≠ "" ∨ (buildLoop rs "" "").2 ≠ "" := by
  by_contra hc
  push_neg at hc
  apply h
  unfold newTranscript
  rw [hc.1, hc.2]
  rfl

theorem step_onresult_rearm (s : VRState) (now : Nat) (rs : List Segment)
    (hrec : s.isRecording = true) (hne : newTranscript rs ≠ "") :
    step s now (.onresult rs) =
      { s with transcript := newTranscript rs, engineResults := rs
               timer := some (now + 3000) } := by
  have hc : (buildLoop rs "" "").1 ≠ "" ∨ (buildLoop rs "" "").2 ≠ "" :=
    newTranscript_parts_ne hne
  unfold step
  dsimp only
  rw [if_pos ⟨hrec, hc⟩]
  rfl

theorem runTimed_cons_no_timer (s : VRState) (t : Nat) (e : Event)
    (rest : List (Nat × Event)) (ht : s.timer = none) :
    runTimed s ((t, e) :: rest) = runTimed (step s t e) rest := by
  conv_lhs => unfold runTimed
  rw [ht]

theorem runTimed_cons_before_deadline (s : VRState) (t d : Nat) (e : Event)
    (rest : List (Nat × Event)) (ht : s.timer = some d) (hlt : ¬d ≤ t) :
    runTimed s ((t, e) :: rest) = runTimed (step s t e) rest := by
  conv_lhs => unfold runTimed
  rw [ht]
  dsimp only
  rw [if_neg hlt]

theorem runTimed_nil_fires (s : VRState) (d : Nat) (ht : s.timer = some d)
    (hrec : s.isRecording = true) :
    runTimed s [] = (stopRec s, some d) := by
  conv_lhs => unfold runTimed
  rw [ht]
  dsimp only
  rw [if_pos hrec]

end VoiceRecording

open VoiceRecording

/-- Claim C2: after every `onresult` event the observable transcript equals
the concatenation, in arrival order, of the texts of all `Final` segments
followed by the current `Interim` run, each segment contributing exactly
once and in list position order. -/
theorem C2_transcript_ordered_concat (s : VRState) (now : Nat)
    (results : List Segment) :
    (step s now (.onresult results)).transcript =
      finalsText results ++ interimsText results := by
  have h : (step s now (.onresult results)).transcript = newTranscript results := by
    unfold step
    dsimp only
    split
    · rfl
    · rfl
  rw [h, newTranscript_eq]

/-- Claim C9: `clearTranscript()` resets the observable transcript to `""`
and the observable error to `null`, and leaves every other component of the
controller state — recording and listening flags, silence timer, retry
counter, pending restart, restart count, and the recognition engine's
cumulative result buffer — unchanged. -/
theorem C9_clearTranscript_frame (s : VRState) (t : Nat) :
    (step s t .callClear).transcript = "" ∧
    (step s t .callClear).error = none ∧
    (step s t .callClear).isRecording = s.isRecording ∧
    (step s t .callClear).isListening = s.isListening ∧
    (step s t .callClear).timer = s.timer ∧
    (step s t .callClear).retryCount = s.retryCount ∧
    (step s t .callClear).pendingRestart = s.pendingRestart ∧
    (step s t .callClear).restarts = s.restarts ∧
    (step s t .callClear).engineResults = s.engineResults :=
  ⟨rfl, rfl, rfl, rfl, rfl, rfl, rfl, rfl, rfl⟩

/-- Claim C8: while a session is active (`isRecording`), `startRecording()`
is a no-op in both versions of the hook: the whole controller state —
status, transcript, error, and ghost instrumentation — is unchanged, and in
the rewrite with explicit instance allocation no new recognition instance
is constructed (`nextId` and the lifecycle logs are untouched). -/
theorem C8_start_noop_while_active (s : VRState) (t : Nat)
    (h : s.isRecording = true) (s2 : FreshInstance.State)
    (h2s : s2.isSupported = true) (h2r : s2.isRecording = true) :
    step s t .callStart = s ∧ FreshInstance.startRecording s2 = s2 := by
  constructor
  · unfold step
    dsimp only
    rw [if_pos h]
  · unfold FreshInstance.startRecording
    rw [if_neg (by simp [h2s]), if_neg (by simp [h2r])]

/-- Witness for C8 at a concrete active state. -/
theorem C8_start_noop_while_active_witness :
    step { initialState with isRecording := true, isListening := true, transcript := "hello" } 7 .callStart
      = { initialState with isRecording := true, isListening := true, transcript := "hello" } ∧
    FreshInstance.startRecording
        { FreshInstance.mkInitial true with isRecording := true, recognitionRef := some 0, nextId := 1, started := [0] }
      = { FreshInstance.mkInitial true with isRecording := true, recognitionRef := some 0, nextId := 1, started := [0] } :=
  C8_start_noop_while_active _ 7 rfl _ rfl rfl

/-- Claim C10: every `onstart` notification resets the retry counter to `0`
and clears the error while raising `isListening`; consequently, after an
abort whose scheduled restart succeeds (an intervening `onstart`), a later
`aborted` report in the same logical session is granted a fresh retry —
the session stays recording and a second restart is scheduled — instead of
terminating. -/
theorem C10_onstart_resets_retry (s : VRState) (t : Nat) (u : VRState)
    (t1 t2 t3 : Nat) (hrec : u.isRecording = true) (h0 : u.retryCount = 0) :
    (step s t .onstart).retryCount = 0 ∧
    (step s t .onstart).error = none ∧
    (step s t .onstart).isListening = true ∧
    (step (step (step u t1 (.onerror "aborted")) t2 .onstart) t3
        (.onerror "aborted")).isRecording = true ∧
    (step (step (step u t1 (.onerror "aborted")) t2 .onstart) t3
        (.onerror "aborted")).pendingRestart = some (t3 + 500) ∧
    (step (step (step u t1 (.onerror "aborted")) t2 .onstart) t3
        (.onerror "aborted")).restarts = u.restarts + 2 := by
  refine ⟨rfl, rfl, rfl, ?_, ?_, ?_⟩ <;>
  · simp only [step, hrec, h0]
    norm_num

/-- Witness for C10 at a concrete recording state. -/
theorem C10_onstart_resets_retry_witness :
    (step (step (step { initialState with isRecording := true, isListening := true } 20
        (.onerror "aborted")) 30 .onstart) 40 (.onerror "aborted")).isRecording = true ∧
    (step (step (step { initialState with isRecording := true, isListening := true } 20
        (.onerror "aborted")) 30 .onstart) 40 (.onerror "aborted")).restarts = 0 + 2 :=
  ⟨(C10_onstart_resets_retry initialState 0 _ 20 30 40 rfl rfl).2.2.2.1,
   (C10_onstart_resets_retry initialState 0 _ 20 30 40 rfl rfl).2.2.2.2.2⟩

/-- Claim C1: for every completed recording session the hand-off effect
delivers the finalized transcript exactly once: while recording nothing is
delivered; once the session has ended with buffer `b`, any number of runs
of the effect delivers the single trimmed string `jsTrim b` exactly once
when it is non-empty, and delivers nothing at all when the buffer is empty
or whitespace-only. -/
theorem C1_exactly_one_delivery (b : String) :
    (∀ s : HandOff.State, s.isRecording = true → HandOff.effectRun s = s) ∧
    (jsTrim b ≠ "" → ∀ n : Nat, 1 ≤ n →
      (HandOff.effectRun^[n] (HandOff.sessionEnd b)).delivered = [jsTrim b]) ∧
    (jsTrim b = "" → ∀ n : Nat,
      (HandOff.effectRun^[n] (HandOff.sessionEnd b)).delivered = []) := by
  refine ⟨HandOff.effectRun_of_recording, ?_, ?_⟩
  · intro hb n hn
    rw [HandOff.effectRun_iterate _ n hn]
    simp [HandOff.effectRun, HandOff.sessionEnd, hb]
  · intro hb n
    have hcond : ¬(¬(HandOff.sessionEnd b).isRecording = true ∧
        jsTrim (HandOff.sessionEnd b).transcript ≠ "") := by
      simp [HandOff.sessionEnd, hb]
    have hfix : HandOff.effectRun (HandOff.sessionEnd b) = HandOff.sessionEnd b := by
      unfold HandOff.effectRun
      rw [if_neg hcond]
    rw [Function.iterate_fixed hfix]
    rfl

/-- Witness for C1 on a concrete non-empty and a concrete whitespace-only
buffer. -/
theorem C1_exactly_one_delivery_witness :
    jsTrim "  I feel sad.  " ≠ "" ∧
    (HandOff.effectRun^[1] (HandOff.sessionEnd "  I feel sad.  ")).delivered
      = [jsTrim "  I feel sad.  "] ∧
    jsTrim "   " = "" ∧
    (HandOff.effectRun^[2] (HandOff.sessionEnd "   ")).delivered = [] :=
  ⟨by decide,
   (C1_exactly_one_delivery "  I feel sad.  ").2.1 (by decide) 1 (by decide),
   by decide,
   (C1_exactly_one_delivery "   ").2.2 (by decide) 2⟩

/-- Claim C3 counterexample: in a listening session with a pending silence
deadline, a result event whose recognized text renders empty (both the
`Final` run and the `Interim` run are `""`) does not re-arm the silence
timer: the old deadline survives instead of becoming `now + 3000`, refuting
"each incremental result (Final or Interim) re-arms the silence timer". -/
theorem C3_counterexample :
    (step { initialState with isRecording := true, isListening := true, timer := some 100 } 2000
        (.onresult [⟨false, ""⟩])).timer = some 100 ∧
    some 100 ≠ some (2000 + 3000) := by decide

/-- Claim C3 (amended): while recording, every incremental result whose
recognized text is non-empty re-arms the silence timer to a fresh 3000 ms
window, and the timeout path terminates the session 3000 ms after the last
such result: a second result arriving `gap < 3000` ms (for example 2999 ms)
after the first moves the termination to `t₁ + gap + 3000`, so no
termination happens at the first window's expiry `t₁ + 3000`. -/
theorem C3_silence_window_rearm (s : VRState) (t1 gap : Nat)
    (rs1 rs2 : List Segment) (hrec : s.isRecording = true) (ht : s.timer = none)
    (h1 : newTranscript rs1 ≠ "") (h2 : newTranscript rs2 ≠ "")
    (hgap0 : 0 < gap) (hgap : gap < 3000) :
    (step s t1 (.onresult rs1)).timer = some (t1 + 3000) ∧
    (runTimed s [(t1, .onresult rs1), (t1 + gap, .onresult rs2)]).2 =
      some (t1 + gap + 3000) ∧
    t1 + gap + 3000 ≠ t1 + 3000 := by
  have e1 := step_onresult_rearm s t1 rs1 hrec h1
  refine ⟨by rw [e1], ?_, by omega⟩
  have hs1rec : (step s t1 (.onresult rs1)).isRecording = true := by
    rw [e1]; exact hrec
  have hs1t : (step s t1 (.onresult rs1)).timer = some (t1 + 3000) := by
    rw [e1]
  have e2 := step_onresult_rearm (step s t1 (.onresult rs1)) (t1 + gap) rs2 hs1rec h2
  have hs2rec : (step (step s t1 (.onresult rs1)) (t1 + gap) (.onresult rs2)).isRecording = true := by
    rw [e2]; exact hs1rec
  have hs2t : (step (step s t1 (.onresult rs1)) (t1 + gap) (.onresult rs2)).timer =
      some (t1 + gap + 3000) := by
    rw [e2]
  rw [runTimed_cons_no_timer s t1 (.onresult rs1) _ ht,
    runTimed_cons_before_deadline _ (t1 + gap) (t1 + 3000) (.onresult rs2) _ hs1t (by omega),
    runTimed_nil_fires _ (t1 + gap + 3000) hs2t hs2rec]

/-- Witness for C3 (amended) on the spec's own scenario: a final result at
0 ms and a second result at 2999 ms terminate by silence at 5999 ms. -/
theorem C3_silence_window_rearm_witness :
    newTranscript [⟨true, "I feel sad."⟩] ≠ "" ∧
    (runTimed { initialState with isRecording := true, isListening := true }
      [(0, .onresult [⟨true, "I feel sad."⟩]), (0 + 2999, .onresult [⟨false, "a"⟩])]).2 =
      some (0 + 2999 + 3000) :=
  ⟨by decide,
   (C3_silence_window_rearm _ 0 2999 _ _ rfl rfl (by decide) (by decide)
     (by decide) (by decide)).2.1⟩

/-- Claim C4 counterexample: within one session (a single `callStart`,
never terminated), the trace aborted → successful restart (`onstart`) →
aborted schedules two restart attempts, and the second `aborted` occurrence
leaves the session still active — refuting both "a second 'aborted'
occurrence in the same session terminates the session" and "at most one
retry per session". -/
theorem C4_counterexample :
    (step (step (step (step (step initialState 0 .callStart) 10 .onstart) 20
        (.onerror "aborted")) 30 .onstart) 40 (.onerror "aborted")).restarts = 2 ∧
    (step (step (step (step (step initialState 0 .callStart) 10 .onstart) 20
        (.onerror "aborted")) 30 .onstart) 40 (.onerror "aborted")).isRecording = true ∧
    (step (step (step (step (step initialState 0 .callStart) 10 .onstart) 20
        (.onerror "aborted")) 30 .onstart) 40 (.onerror "aborted")).pendingRestart
      = some (40 + 500) := by
  decide

/-- Claim C4 (amended): the first `aborted` report while the session is
active and no retry has been consumed schedules exactly one restart attempt
500 ms later and preserves the entire transcript state (only the listening
flag, retry counter, and restart bookkeeping change); a second `aborted`
arriving before any successful restart (`onstart`) terminates the session
with no further restart scheduled. The one-retry bound is per run of
consecutive aborts, since a successful restart resets the counter. -/
theorem C4_single_retry_per_abort_run (s : VRState) (t t2 : Nat)
    (hrec : s.isRecording = true) (h0 : s.retryCount = 0) :
    step s t (.onerror "aborted") =
      { s with isListening := false, retryCount := 1
               pendingRestart := some (t + 500), restarts := s.restarts + 1 } ∧
    step (step s t (.onerror "aborted")) t2 (.onerror "aborted") =
      { s with isListening := false, isRecording := false, retryCount := 0
               pendingRestart := some (t + 500), restarts := s.restarts + 1 } := by
  have h1 : step s t (.onerror "aborted") =
      { s with isListening := false, retryCount := 1
               pendingRestart := some (t + 500), restarts := s.restarts + 1 } := by
    unfold step
    dsimp only
    rw [if_pos rfl, if_pos ⟨hrec, by omega⟩]
    rw [h0]
  refine ⟨h1, ?_⟩
  rw [h1]
  unfold step
  dsimp only
  rw [if_pos rfl, if_neg (fun hcon => Nat.lt_irrefl 1 hcon.2)]

/-- Witness for C4 (amended) at a concrete listening state. -/
theorem C4_single_retry_per_abort_run_witness :
    step { initialState with isRecording := true, isListening := true } 20
        (.onerror "aborted") =
      { initialState with isRecording := true, isListening := false
                          retryCount := 1, pendingRestart := some 520, restarts := 1 } ∧
    step (step { initialState with isRecording := true, isListening := true } 20
        (.onerror "aborted")) 30 (.onerror "aborted") =
      { initialState with isListening := false, retryCount := 0
                          pendingRestart := some 520, restarts := 1 } :=
  ⟨((C4_single_retry_per_abort_run _ 20 30 rfl rfl).1).trans (by decide),
   ((C4_single_retry_per_abort_run _ 20 30 rfl rfl).2).trans (by decide)⟩

/-- Claim C6 counterexample: the second consecutive `aborted` report is
terminal (the session leaves the recording state) but is never surfaced to
the observable error state, which stays `none` — refuting "every error kind
except a SpuriousAbort on its first occurrence is terminal and surfaced". -/
theorem C6_counterexample :
    errorKind "aborted" = ErrorKind.SpuriousAbort ∧
    (step (step (step (step initialState 0 .callStart) 10 .onstart) 20
        (.onerror "aborted")) 30 (.onerror "aborted")).isRecording = false ∧
    (step (step (step (step initialState 0 .callStart) 10 .onstart) 20
        (.onerror "aborted")) 30 (.onerror "aborted")).error = none := by
  decide

/-- Claim C6 (amended): every error code other than `aborted` is terminal
and surfaced: the observable error becomes the code's message, the session
leaves `Listening` and recording, and no restart is scheduled; in
particular `not-allowed` is classified `PermissionDenied` and surfaces the
microphone-permission message. The `aborted` code (`SpuriousAbort`) is
never surfaced, whether on its first or a later occurrence. -/
theorem C6_terminal_errors_surfaced (s : VRState) (t : Nat) (code : String)
    (hc : code ≠ "aborted") :
    (step s t (.onerror code)).error = some (errorMessage code) ∧
    (step s t (.onerror code)).isListening = false ∧
    (step s t (.onerror code)).isRecording = false ∧
    (step s t (.onerror code)).restarts = s.restarts ∧
    errorKind "not-allowed" = ErrorKind.PermissionDenied ∧
    errorMessage "not-allowed" =
      "Microphone access denied. Please allow microphone permissions and try again." ∧
    (∀ u : VRState, ∀ t' : Nat, (step u t' (.onerror "aborted")).error = u.error) := by
  have hstep : step s t (.onerror code) =
      { s with error := some (errorMessage code), isListening := false
               isRecording := false } := by
    unfold step
    dsimp only
    rw [if_neg hc]
  refine ⟨by rw [hstep], by rw [hstep], by rw [hstep], by rw [hstep],
    by decide, by decide, ?_⟩
  intro u t'
  unfold step
  dsimp only
  rw [if_pos rfl]
  split
  · rfl
  · rfl

/-- Witness for C6 (amended) on the `not-allowed` scenario. -/
theorem C6_terminal_errors_surfaced_witness :
    (step { initialState with isRecording := true, isListening := true } 5
        (.onerror "not-allowed")).error =
      some "Microphone access denied. Please allow microphone permissions and try again." ∧
    (step { initialState with isRecording := true, isListening := true } 5
        (.onerror "not-allowed")).isListening = false :=
  ⟨((C6_terminal_errors_surfaced _ 5 "not-allowed" (by decide)).1).trans (by decide),
   (C6_terminal_errors_surfaced _ 5 "not-allowed" (by decide)).2.1⟩

/-- Claim C7: after a terminal error — a surfaced non-`aborted` error, or a
second consecutive `aborted` — the controller is neither `Listening` nor
recording, and a subsequent `startRecording()` is not blocked by residual
state: it begins a fresh session with cleared transcript and error. -/
theorem C7_start_after_terminal_error (s : VRState) (t t' : Nat) (code : String)
    (hc : code ≠ "aborted") (s2 : VRState) (t2 t2' : Nat)
    (_h2rec : s2.isRecording = true) (h2rc : 1 ≤ s2.retryCount) :
    (step s t (.onerror code)).isListening = false ∧
    (step s t (.onerror code)).isRecording = false ∧
    (step (step s t (.onerror code)) t' .callStart).isRecording = true ∧
    (step (step s t (.onerror code)) t' .callStart).transcript = "" ∧
    (step (step s t (.onerror code)) t' .callStart).error = none ∧
    (step s2 t2 (.onerror "aborted")).isListening = false ∧
    (step s2 t2 (.onerror "aborted")).isRecording = false ∧
    (step (step s2 t2 (.onerror "aborted")) t2' .callStart).isRecording = true := by
  have hstep : step s t (.onerror code) =
      { s with error := some (errorMessage code), isListening := false
               isRecording := false } := by
    unfold step
    dsimp only
    rw [if_neg hc]
  have habort : step s2 t2 (.onerror "aborted") =
      { s2 with isListening := false, isRecording := false, retryCount := 0 } := by
    unfold step
    dsimp only
    rw [if_pos rfl, if_neg (fun hcon => absurd h2rc (by omega))]
  have hstart : ∀ u : VRState, u.isRecording = false → ∀ tu : Nat,
      step u tu .callStart =
        { u with transcript := "", error := none, isRecording := true } := by
    intro u hu tu
    unfold step
    dsimp only
    rw [if_neg (by simp [hu])]
  have h2 := hstart (step s t (.onerror code)) (by rw [hstep]) t'
  have h3 := hstart (step s2 t2 (.onerror "aborted")) (by rw [habort]) t2'
  exact ⟨by rw [hstep], by rw [hstep], by rw [h2], by rw [h2], by rw [h2],
    by rw [habort], by rw [habort], by rw [h3]⟩

/-- Witness for C7 on a `network` error and on a second consecutive abort. -/
theorem C7_start_after_terminal_error_witness :
    (step { initialState with isRecording := true, isListening := true } 5
        (.onerror "network")).isRecording = false ∧
    (step (step { initialState with isRecording := true, isListening := true } 5
        (.onerror "network")) 6 .callStart).isRecording = true ∧
    (step (step { initialState with isRecording := true, retryCount := 1 } 7
        (.onerror "aborted")) 8 .callStart).isRecording = true :=
  ⟨(C7_start_after_terminal_error
      { initialState with isRecording := true, isListening := true } 5 6 "network" (by decide)
      { initialState with isRecording := true, retryCount := 1 } 7 8 rfl
      (by decide)).2.1,
   (C7_start_after_terminal_error
      { initialState with isRecording := true, isListening := true } 5 6 "network" (by decide)
      { initialState with isRecording := true, retryCount := 1 } 7 8 rfl
      (by decide)).2.2.1,
   (C7_start_after_terminal_error initialState 5 6 "network" (by decide)
      { initialState with isRecording := true, retryCount := 1 } 7 8 rfl
      (by decide)).2.2.2.2.2.2.2⟩

/-- Claim C5: in the rewrite with explicit instance construction, every
`startRecording()` that begins a session allocates a brand-new recognition
instance: under the allocator invariant — which holds initially and is
preserved by start and stop — the instance handed to the new session was
never started and never terminated before, so a terminated instance is
never reused by a subsequent start. -/
theorem C5_fresh_instance_per_start (s : FreshInstance.State)
    (hinv : FreshInstance.Inv s) (hs : s.isSupported = true)
    (hr : s.isRecording = false) :
    (FreshInstance.startRecording s).recognitionRef = some s.nextId ∧
    (FreshInstance.startRecording s).started = s.started ++ [s.nextId] ∧
    s.nextId ∉ s.started ∧ s.nextId ∉ s.terminated ∧
    FreshInstance.Inv (FreshInstance.startRecording s) ∧
    FreshInstance.Inv (FreshInstance.stopRecording s) ∧
    FreshInstance.Inv (FreshInstance.mkInitial s.isSupported) := by
  have hstart : FreshInstance.startRecording s =
      { s with recognitionRef := some s.nextId, nextId := s.nextId + 1
               transcript := "", error := none, isRecording := true
               started := s.started ++ [s.nextId] } := by
    unfold FreshInstance.startRecording
    rw [if_neg (by simp [hs]), if_pos (by simp [hr])]
  refine ⟨by rw [hstart], by rw [hstart], ?_, ?_,
    FreshInstance.inv_start s hinv, FreshInstance.inv_stop s hinv,
    FreshInstance.inv_initial s.isSupported⟩
  · intro hmem
    exact absurd (hinv.1 s.nextId hmem) (lt_irrefl s.nextId)
  · intro hmem
    exact absurd (hinv.2.1 s.nextId hmem) (lt_irrefl s.nextId)

/-- Witness for C5 after one completed start–stop cycle: the next start
allocates id 1, distinct from the terminated id 0. -/
theorem C5_fresh_instance_per_start_witness :
    FreshInstance.Inv
      (FreshInstance.stopRecording (FreshInstance.startRecording (FreshInstance.mkInitial true))) ∧
    (FreshInstance.startRecording
      (FreshInstance.stopRecording (FreshInstance.startRecording (FreshInstance.mkInitial true)))).recognitionRef
      = some (FreshInstance.stopRecording (FreshInstance.startRecording (FreshInstance.mkInitial true))).nextId ∧
    (FreshInstance.stopRecording (FreshInstance.startRecording (FreshInstance.mkInitial true))).nextId
      ∉ (FreshInstance.stopRecording (FreshInstance.startRecording (FreshInstance.mkInitial true))).terminated :=
  ⟨by decide,
   (C5_fresh_instance_per_start _ (by decide) (by decide) (by decide)).1,
   (C5_fresh_instance_per_start _ (by decide) (by decide) (by decide)).2.2.2.1⟩
